import Mathlib

/-!
Verification of the automotive dashboard (streamlit_app.py).

Shallow embedding of the script: the database is a record of tables (lists
of rows), each of the seven SQL queries becomes a Lean function over that
record, SQL numeric values (AVG results, ratings, speeds, discounts) are
modelled as rationals, dates as year/month/day triples ordered
lexicographically, and SQL GROUP BY / ORDER BY / LIMIT as dedup-and-count,
insertion sort, and take.  The f-string SQL text of query 2 is embedded as
a string-building function, and the top-level control flow of the script
(no date validation; connection closed only after all seven queries
succeed) as explicit definitions.
-/

/-- A calendar date as stored in the sale_date column. -/
structure Date where
  year : Nat
  month : Nat
  day : Nat
deriving DecidableEq

/-- SQL date comparison: lexicographic on (year, month, day). -/
def Date.le (a b : Date) : Bool :=
  decide (a.year < b.year ∨ (a.year = b.year ∧
    (a.month < b.month ∨ (a.month = b.month ∧ a.day ≤ b.day))))

/-- DATE_TRUNC with field month: the first day of the month of d. -/
def truncMonth (d : Date) : Date :=
  ⟨d.year, d.month, 1⟩

/-- A row of the reviews table (columns used by the queries). -/
structure ReviewRow where
  model_id : Nat
  rating : ℚ
deriving DecidableEq

/-- A row of the car_model table (columns used by the queries). -/
structure CarModelRow where
  model_id : Nat
  manufacturer_id : Nat
  model_name : String
  category : String
deriving DecidableEq

/-- A row of the manufacturer table (columns used by the queries). -/
structure ManufacturerRow where
  manufacturer_id : Nat
  name : String
deriving DecidableEq

/-- A row of the sales table (columns used by the queries). -/
structure SaleRow where
  model_id : Nat
  dealership_id : Nat
  sale_date : Date
deriving DecidableEq

/-- A row of the dealership table (columns used by the queries). -/
structure DealershipRow where
  dealership_id : Nat
  name : String
deriving DecidableEq

/-- A row of the performance table (columns used by the queries). -/
structure PerformanceRow where
  model_id : Nat
  top_speed : ℚ
deriving DecidableEq

/-- A row of the pricing table (columns used by the queries). -/
structure PricingRow where
  model_id : Nat
  discount : ℚ
deriving DecidableEq

/-- The database state: the seven tables the queries read. -/
structure DB where
  reviews : List ReviewRow
  car_model : List CarModelRow
  manufacturer : List ManufacturerRow
  sales : List SaleRow
  dealership : List DealershipRow
  performance : List PerformanceRow
  pricing : List PricingRow

/-- GROUP BY key with COUNT(*): each distinct key of l paired with its
multiplicity in l. -/
def countGroups {κ : Type} [DecidableEq κ] (l : List κ) : List (κ × Nat) :=
  l.dedup.map (fun k => (k, l.count k))

/-- SQL AVG over a list of rationals. -/
def listAvg (l : List ℚ) : ℚ :=
  l.sum / (l.length : ℚ)

/-- GROUP BY key with AVG(value) over key-value pairs. -/
def avgGroups {κ : Type} [DecidableEq κ] (l : List (κ × ℚ)) : List (κ × ℚ) :=
  (l.map Prod.fst).dedup.map
    (fun k => (k, listAvg ((l.filter (fun p => p.1 == k)).map Prod.snd)))

/-- ORDER BY value DESC for rational-valued rows. -/
def descQ (a b : String × ℚ) : Prop :=
  b.2 ≤ a.2

instance : DecidableRel descQ :=
  fun a b => inferInstanceAs (Decidable (b.2 ≤ a.2))

instance : IsTotal (String × ℚ) descQ :=
  ⟨fun a b => le_total b.2 a.2⟩

instance : IsTrans (String × ℚ) descQ :=
  ⟨fun _ _ _ h1 h2 => le_trans h2 h1⟩

/-- ORDER BY count DESC for natural-valued rows. -/
def descN (a b : String × Nat) : Prop :=
  b.2 ≤ a.2

instance : DecidableRel descN :=
  fun a b => inferInstanceAs (Decidable (b.2 ≤ a.2))

instance : IsTotal (String × Nat) descN :=
  ⟨fun a b => Nat.le_total b.2 a.2⟩

instance : IsTrans (String × Nat) descN :=
  ⟨fun _ _ _ h1 h2 => Nat.le_trans h2 h1⟩

/-- ORDER BY sale_month ASC for month-count rows. -/
def ascDate (a b : Date × Nat) : Prop :=
  Date.le a.1 b.1 = true

instance : DecidableRel ascDate :=
  fun a b => inferInstanceAs (Decidable (Date.le a.1 b.1 = true))

theorem Date.le_refl (a : Date) : Date.le a a = true := by
  simp only [Date.le, decide_eq_true_eq]
  exact Or.inr ⟨trivial, Or.inr ⟨trivial, Nat.le_refl _⟩⟩

theorem Date.le_trans {a b c : Date} (h1 : Date.le a b = true)
    (h2 : Date.le b c = true) : Date.le a c = true := by
  simp only [Date.le, decide_eq_true_eq] at h1 h2 ⊢
  omega

theorem Date.le_total_bool (a b : Date) :
    Date.le a b = true ∨ Date.le b a = true := by
  simp only [Date.le, decide_eq_true_eq]
  omega

instance : IsTotal (Date × Nat) ascDate :=
  ⟨fun a b => Date.le_total_bool a.1 b.1⟩

instance : IsTrans (Date × Nat) ascDate :=
  ⟨fun _ _ _ h1 h2 => Date.le_trans h1 h2⟩

/-- ORDER BY sale_month, category for the category-monthly rows. -/
def q7le (a b : Date × String × Nat) : Bool :=
  if a.1 = b.1 then decide (a.2.1 ≤ b.2.1) else Date.le a.1 b.1

/-- Relation form of q7le, as used by the sort of query 7. -/
def q7Rel (a b : Date × String × Nat) : Prop :=
  q7le a b = true

instance : DecidableRel q7Rel :=
  fun a b => inferInstanceAs (Decidable (q7le a b = true))

/-- Query 1 (lines 45-53): average rating per manufacturer over
reviews JOIN car_model JOIN manufacturer, ORDER BY avg_rating DESC,
LIMIT 5. -/
def query1 (db : DB) : List (String × ℚ) :=
  let rows := db.reviews.flatMap (fun r =>
    (db.car_model.filter (fun cm => cm.model_id == r.model_id)).flatMap (fun cm =>
      (db.manufacturer.filter
        (fun m => m.manufacturer_id == cm.manufacturer_id)).map (fun m =>
          (m.name, r.rating))))
  (List.insertionSort descQ (avgGroups rows)).take 5

/-- Query 2 (lines 64-70): sales with sale_date BETWEEN start_date AND
end_date, grouped by DATE_TRUNC month with COUNT(*), ORDER BY sale_month. -/
def query2 (db : DB) (start_date end_date : Date) : List (Date × Nat) :=
  let filtered := db.sales.filter (fun r =>
    Date.le start_date r.sale_date && Date.le r.sale_date end_date)
  let months := filtered.map (fun r => truncMonth r.sale_date)
  List.insertionSort ascDate (countGroups months)

/-- Query 3 (lines 89-94): model count per category over car_model,
ORDER BY total_models DESC. -/
def query3 (db : DB) : List (String × Nat) :=
  List.insertionSort descN (countGroups (db.car_model.map (fun cm => cm.category)))

/-- Query 4 (lines 130-136): model name and top speed over
performance JOIN car_model, ORDER BY top_speed DESC, LIMIT 5. -/
def query4 (db : DB) : List (String × ℚ) :=
  let rows := db.performance.flatMap (fun p =>
    (db.car_model.filter (fun cm => cm.model_id == p.model_id)).map (fun cm =>
      (cm.model_name, p.top_speed)))
  (List.insertionSort descQ rows).take 5

/-- Query 5 (lines 148-155): sale count per dealership over
sales JOIN dealership, ORDER BY total_sales DESC, LIMIT 5. -/
def query5 (db : DB) : List (String × Nat) :=
  let rows := db.sales.flatMap (fun s =>
    (db.dealership.filter (fun d => d.dealership_id == s.dealership_id)).map
      (fun d => d.name))
  (List.insertionSort descN (countGroups rows)).take 5

/-- Query 6 (lines 167-173): average discount per category over
pricing JOIN car_model, ORDER BY avg_discount DESC. -/
def query6 (db : DB) : List (String × ℚ) :=
  let rows := db.pricing.flatMap (fun p =>
    (db.car_model.filter (fun cm => cm.model_id == p.model_id)).map (fun cm =>
      (cm.category, p.discount)))
  List.insertionSort descQ (avgGroups rows)

/-- Query 7 (lines 185-191): sale count per (month, category) over
sales JOIN car_model, ORDER BY sale_month, category. -/
def query7 (db : DB) : List (Date × String × Nat) :=
  let rows := db.sales.flatMap (fun s =>
    (db.car_model.filter (fun cm => cm.model_id == s.model_id)).map (fun cm =>
      (truncMonth s.sale_date, cm.category)))
  List.insertionSort q7Rel (rows.dedup.map (fun k => (k.1, k.2, rows.count k)))

/-- The single-quote character used by the SQL text of query 2. -/
def sqlQuote : String :=
  String.mk [Char.ofNat 39]

/-- The f-string text of query 2 before the interpolated start_date. -/
def sqlPre : String :=
  "\nSELECT DATE_TRUNC(" ++ sqlQuote ++ "month" ++ sqlQuote ++
    ", sale_date) AS sale_month, COUNT(*) AS total_sales\nFROM sales\n" ++
    "WHERE sale_date BETWEEN " ++ sqlQuote

/-- The f-string text of query 2 between the interpolated dates. -/
def sqlMid : String :=
  sqlQuote ++ " AND " ++ sqlQuote

/-- The f-string text of query 2 after the interpolated end_date. -/
def sqlSuf : String :=
  sqlQuote ++ "\nGROUP BY sale_month\nORDER BY sale_month;\n"

/-- The executed SQL text of query 2 (lines 64-70): a Python f-string in
which the rendered start_date and end_date values are interpolated between
single quotes; pd.read_sql_query receives this text with no bound
parameters. -/
def sqlText2 (start_date end_date : String) : String :=
  sqlPre ++ start_date ++ sqlMid ++ end_date ++ sqlSuf

/-- An injection-attempt rendered date value containing a quote character. -/
def injectionInput : String :=
  "2020-01-01" ++ sqlQuote ++ "; DROP TABLE sales; --"

/-- Outcome of the sidebar filter followed by query 2 (lines 26-31 and
64-73): the pair returned by st.date_input flows straight into the query;
the script contains no comparison of start_date with end_date and no
validation branch. -/
structure FilterRun where
  validationError : Bool
  queryIssued : Bool
  result : List (Date × Nat)
deriving DecidableEq

/-- Lines 26-73 of the script: whatever date pair the sidebar yields is
used to issue query 2; no validation occurs, so no ValidationError is ever
raised and the query is issued unconditionally. -/
def runMonthlyFilter (db : DB) (start_date end_date : Date) : FilterRun :=
  { validationError := false
    queryIssued := true
    result := query2 db start_date end_date }

/-- Outcome of one top-level run of the script. -/
structure ScriptRun where
  completedQueries : Nat
  connClosed : Bool
deriving DecidableEq

/-- Top-level control flow of the script (lines 36-203): the seven queries
execute in order with no try/finally; an exception raised by query n
terminates the script before cursor.close()/conn.close() at lines 202-203,
which run only when all seven queries succeed.  fails n states whether
query n raises. -/
def runDashboardScript (fails : Nat → Bool) : ScriptRun :=
  if fails 1 then ⟨0, false⟩
  else if fails 2 then ⟨1, false⟩
  else if fails 3 then ⟨2, false⟩
  else if fails 4 then ⟨3, false⟩
  else if fails 5 then ⟨4, false⟩
  else if fails 6 then ⟨5, false⟩
  else if fails 7 then ⟨6, false⟩
  else ⟨7, true⟩

/-- The pie wedges of the category-distribution chart (line 100):
matplotlib normalises the total_models column to fractions of its sum. -/
def pieWedges (rows : List (String × Nat)) : List (String × ℚ) :=
  rows.map (fun p => (p.1, (p.2 : ℚ) / (((rows.map Prod.snd).sum : Nat) : ℚ)))

/-- One-decimal display rounding performed by the autopct format of
line 100 (a percentage formatted with one digit after the point). -/
def round1 (q : ℚ) : ℚ :=
  ((round (q * 10) : ℤ) : ℚ) / 10

/-- The percentage texts the pie chart displays: each wedge fraction times
100, rounded independently to one decimal by autopct. -/
def displayedPercents (rows : List (String × Nat)) : List ℚ :=
  (pieWedges rows).map (fun p => round1 (p.2 * 100))

/-- The percentage values before display rounding: each wedge fraction
times 100. -/
def rawPercents (rows : List (String × Nat)) : List ℚ :=
  (pieWedges rows).map (fun p => p.2 * 100)

/-- The chart data handed to the seven chart calls of the script. -/
structure Charts where
  bar1 : List (String × ℚ)
  line2 : List (Date × Nat)
  pie3 : List (String × ℚ)
  bar4 : List (String × ℚ)
  bar5 : List (String × Nat)
  bar6 : List (String × ℚ)
  line7 : List (Date × String × Nat)
deriving DecidableEq

/-- The rendering stage of the script: each query result is passed to its
chart call (bar charts receive the label-value pairs unchanged via
set_index and column selection; the pie chart receives the normalised
wedges; the line charts receive the rows unchanged). -/
def renderDashboard (db : DB) (start_date end_date : Date) : Charts :=
  { bar1 := query1 db
    line2 := query2 db start_date end_date
    pie3 := pieWedges (query3 db)
    bar4 := query4 db
    bar5 := query5 db
    bar6 := query6 db
    line7 := query7 db }

/-- The seven query results of one page load, as functions of the database
state and the sidebar date range. -/
structure DashboardResults where
  q1 : List (String × ℚ)
  q2 : List (Date × Nat)
  q3 : List (String × Nat)
  q4 : List (String × ℚ)
  q5 : List (String × Nat)
  q6 : List (String × ℚ)
  q7 : List (Date × String × Nat)

/-- All seven query results of one page load. -/
def dashboardResults (db : DB) (start_date end_date : Date) : DashboardResults :=
  { q1 := query1 db
    q2 := query2 db start_date end_date
    q3 := query3 db
    q4 := query4 db
    q5 := query5 db
    q6 := query6 db
    q7 := query7 db }

/-- A database with all seven tables empty. -/
def emptyDB : DB :=
  { reviews := []
    car_model := []
    manufacturer := []
    sales := []
    dealership := []
    performance := []
    pricing := [] }

/-- A database holding one sale dated 2020-01-20. -/
def oneSaleDB : DB :=
  { emptyDB with sales := [⟨1, 1, ⟨2020, 1, 20⟩⟩] }

/-- A database holding three car models in three distinct categories. -/
def threeCategoryDB : DB :=
  { emptyDB with car_model :=
      [⟨1, 1, "M1", "SUV"⟩, ⟨2, 1, "M2", "Sedan"⟩, ⟨3, 1, "M3", "Truck"⟩] }

theorem countGroups_mem_iff {κ : Type} [DecidableEq κ] {l : List κ}
    {p : κ × Nat} : p ∈ countGroups l ↔ p.1 ∈ l ∧ p.2 = l.count p.1 := by
  constructor
  · intro h
    simp only [countGroups, List.mem_map] at h
    obtain ⟨k, hk, he⟩ := h
    cases he
    exact ⟨List.mem_dedup.mp hk, rfl⟩
  · intro h
    obtain ⟨h1, h2⟩ := h
    simp only [countGroups, List.mem_map]
    exact ⟨p.1, List.mem_dedup.mpr h1, by rw [← h2]⟩

theorem mem_query2_iff {db : DB} {s e : Date} {p : Date × Nat} :
    p ∈ query2 db s e ↔
      p ∈ countGroups ((db.sales.filter (fun r =>
        Date.le s r.sale_date && Date.le r.sale_date e)).map
          (fun r => truncMonth r.sale_date)) := by
  simp only [query2, List.mem_insertionSort]

theorem truncMonth_le_self {d : Date} (h : 1 ≤ d.day) :
    Date.le (truncMonth d) d = true := by
  simp only [truncMonth, Date.le, decide_eq_true_eq, true_and, and_true]
  omega

theorem truncMonth_mono {a b : Date} (h : Date.le a b = true) :
    Date.le (truncMonth a) (truncMonth b) = true := by
  simp only [truncMonth, Date.le, decide_eq_true_eq, true_and, and_true]
    at h ⊢
  omega

/-- C1: the claim that the monthly-sales query passes (start_date,
end_date) as bound query arguments, with no character of user input in the
executed SQL text, is refuted by the code: query 2 is a Python f-string,
so at the injection-attempt input (a rendered date value containing a
quote character) the whole input, quote included, occurs verbatim inside
the executed SQL text. -/
theorem query2_sql_text_interpolates_user_input :
    injectionInput.data <:+: (sqlText2 injectionInput "2024-12-31").data ∧
      Char.ofNat 39 ∈ injectionInput.data := by
  constructor
  · exact ⟨sqlPre.data, (sqlMid ++ "2024-12-31" ++ sqlSuf).data, by
      simp [sqlText2, List.append_assoc]⟩
  · decide

/-- C2: the claim that a reversed date range (start > end) raises a
ValidationError before querying is refuted by the code: the script
contains no validation between st.date_input and query 2, so on the
reversed range 2021-01-01 > 2020-01-01 no validation error is raised and
the monthly-sales query is still issued. -/
theorem reversed_range_not_validated :
    (runMonthlyFilter oneSaleDB ⟨2021, 1, 1⟩ ⟨2020, 1, 1⟩).validationError
        = false ∧
      (runMonthlyFilter oneSaleDB ⟨2021, 1, 1⟩ ⟨2020, 1, 1⟩).queryIssued
        = true ∧
      Date.le ⟨2021, 1, 1⟩ ⟨2020, 1, 1⟩ = false :=
  ⟨rfl, rfl, by decide⟩

/-- C3: the claim that the connection is released on every execution path
is refuted by the code: conn.close() at line 203 is top-level straight-line
code with no try/finally, so when query 2 raises, the script terminates
with the connection never closed; only the all-queries-succeed path closes
it (exactly once). -/
theorem failing_query_skips_connection_close :
    (runDashboardScript (fun n => n == 2)).connClosed = false ∧
      (runDashboardScript (fun _ => false)).connClosed = true :=
  ⟨by decide, by decide⟩

/-- C4 counterexample: the claim that every month returned by the
monthly-sales query lies within the closed interval [start, end] fails at
start 2020-01-15, end 2020-01-31 with one sale on 2020-01-20: the query
returns the truncated month 2020-01-01, which is strictly before start. -/
theorem month_outside_range_counterexample :
    ((⟨2020, 1, 1⟩ : Date), 1) ∈ query2 oneSaleDB ⟨2020, 1, 15⟩ ⟨2020, 1, 31⟩ ∧
      Date.le ⟨2020, 1, 15⟩ ⟨2020, 1, 1⟩ = false :=
  ⟨by decide, by decide⟩

/-- C4 amended: for sales tables whose dates have a valid day (at least 1),
every month returned by the monthly-sales query lies within
[truncMonth start, end]: it is the month truncation of some sale date in
[start, end], so it can precede start by at most a partial month but never
exceeds end. -/
theorem monthly_months_in_trunc_range (db : DB) (s e : Date)
    (hday : ∀ r ∈ db.sales, 1 ≤ r.sale_date.day) :
    ∀ p ∈ query2 db s e,
      Date.le (truncMonth s) p.1 = true ∧ Date.le p.1 e = true := by
  intro p hp
  rw [mem_query2_iff] at hp
  obtain ⟨h1, -⟩ := countGroups_mem_iff.mp hp
  simp only [List.mem_map, List.mem_filter] at h1
  obtain ⟨r, ⟨hr, hcond⟩, htr⟩ := h1
  rw [Bool.and_eq_true] at hcond
  rw [← htr]
  constructor
  · exact truncMonth_mono hcond.1
  · exact Date.le_trans (truncMonth_le_self (hday r hr)) hcond.2

/-- Witness for C4 amended at the one-sale database: the returned month
2020-01-01 lies within [truncMonth 2020-01-15, 2020-01-31]. -/
theorem monthly_months_in_trunc_range_witness :
    Date.le (truncMonth ⟨2020, 1, 15⟩) (⟨2020, 1, 1⟩ : Date) = true ∧
      Date.le (⟨2020, 1, 1⟩ : Date) ⟨2020, 1, 31⟩ = true :=
  monthly_months_in_trunc_range oneSaleDB ⟨2020, 1, 15⟩ ⟨2020, 1, 31⟩
    (by decide) (⟨2020, 1, 1⟩, 1) (by decide)

/-- C5: for a fixed database state, the results of the six queries other
than the monthly-sales query are identical across any two user-supplied
date ranges: the date-range filter constrains the monthly-sales result
only. -/
theorem date_range_constrains_only_monthly_sales (db : DB)
    (s1 e1 s2 e2 : Date) :
    (dashboardResults db s1 e1).q1 = (dashboardResults db s2 e2).q1 ∧
      (dashboardResults db s1 e1).q3 = (dashboardResults db s2 e2).q3 ∧
      (dashboardResults db s1 e1).q4 = (dashboardResults db s2 e2).q4 ∧
      (dashboardResults db s1 e1).q5 = (dashboardResults db s2 e2).q5 ∧
      (dashboardResults db s1 e1).q6 = (dashboardResults db s2 e2).q6 ∧
      (dashboardResults db s1 e1).q7 = (dashboardResults db s2 e2).q7 :=
  ⟨rfl, rfl, rfl, rfl, rfl, rfl⟩

/-- C6: for every database state, the top-manufacturers, top-fastest-cars
and top-dealerships queries return at most 5 rows, the bound coming from
the take 5 inside each query definition (the LIMIT clause), not from any
truncation after the query. -/
theorem top5_queries_limit_five (db : DB) :
    (query1 db).length ≤ 5 ∧ (query4 db).length ≤ 5 ∧
      (query5 db).length ≤ 5 := by
  refine ⟨?_, ?_, ?_⟩ <;>
    simp only [query1, query4, query5, List.length_take] <;> omega

/-- C7: each query result is handed to its renderer already in its ORDER
BY order: manufacturer ratings, top speeds, dealership sales and category
discounts descending in their value column, and monthly sales ascending in
month. -/
theorem query_results_sorted (db : DB) (s e : Date) :
    List.Sorted descQ (query1 db) ∧
      List.Sorted ascDate (query2 db s e) ∧
      List.Sorted descQ (query4 db) ∧
      List.Sorted descN (query5 db) ∧
      List.Sorted descQ (query6 db) := by
  refine ⟨?_, ?_, ?_, ?_, ?_⟩
  · exact List.Pairwise.sublist (List.take_sublist 5 _)
      (List.sorted_insertionSort descQ _)
  · exact List.sorted_insertionSort ascDate _
  · exact List.Pairwise.sublist (List.take_sublist 5 _)
      (List.sorted_insertionSort descQ _)
  · exact List.Pairwise.sublist (List.take_sublist 5 _)
      (List.sorted_insertionSort descN _)
  · exact List.sorted_insertionSort descQ _

/-- C8: when every query returns zero rows, the rendering stage produces
the all-empty chart state: each bar and line chart receives an empty data
series and the pie chart an empty wedge list; the renderers are total, so
no exception is possible. -/
theorem empty_results_render_empty_charts (db : DB) (s e : Date)
    (h1 : query1 db = []) (h2 : query2 db s e = []) (h3 : query3 db = [])
    (h4 : query4 db = []) (h5 : query5 db = []) (h6 : query6 db = [])
    (h7 : query7 db = []) :
    renderDashboard db s e = ⟨[], [], [], [], [], [], []⟩ := by
  simp [renderDashboard, pieWedges, h1, h2, h3, h4, h5, h6, h7]

/-- Witness for C8 at the empty database, where all seven queries return
zero rows. -/
theorem empty_results_render_empty_charts_witness :
    renderDashboard emptyDB ⟨2020, 1, 1⟩ ⟨2020, 12, 31⟩
      = ⟨[], [], [], [], [], [], []⟩ :=
  empty_results_render_empty_charts emptyDB ⟨2020, 1, 1⟩ ⟨2020, 12, 31⟩
    rfl rfl rfl rfl rfl rfl rfl

theorem query3_counts_pos (db : DB) : ∀ p ∈ query3 db, 1 ≤ p.2 := by
  intro p hp
  simp only [query3, List.mem_insertionSort] at hp
  obtain ⟨h1, h2⟩ := countGroups_mem_iff.mp hp
  rw [h2]
  exact List.count_pos_iff.mpr h1

theorem sum_counts_pos {rows : List (String × Nat)} (hne : rows ≠ [])
    (hpos : ∀ p ∈ rows, 1 ≤ p.2) : 1 ≤ (rows.map Prod.snd).sum := by
  cases rows with
  | nil => exact absurd rfl hne
  | cons a t =>
    have ha := hpos a (List.mem_cons_self a t)
    simp only [List.map_cons, List.sum_cons]
    omega

theorem pie_sum (l : List (String × Nat)) (T : ℚ) :
    (l.map (fun p => ((p.2 : ℚ) / T) * 100)).sum
      = (((l.map Prod.snd).sum : ℕ) : ℚ) / T * 100 := by
  induction l with
  | nil => simp
  | cons a t ih =>
    simp only [List.map_cons, List.sum_cons, ih]
    push_cast
    ring

/-- C9 amended: the wedge fractions the pie chart is built from sum to
exactly 1, i.e. the percentages before autopct display rounding sum to
exactly 100, for every non-empty category-distribution result; the
displayed one-decimal percentages are rounded independently per wedge
and their sum can deviate from 100. -/
theorem raw_percent_sum_100 (db : DB) (hne : query3 db ≠ []) :
    (rawPercents (query3 db)).sum = 100 := by
  have hT : 1 ≤ ((query3 db).map Prod.snd).sum :=
    sum_counts_pos hne (query3_counts_pos db)
  have hx : ((((query3 db).map Prod.snd).sum : ℕ) : ℚ) ≠ 0 :=
    Nat.cast_ne_zero.mpr (by omega)
  simp only [rawPercents, pieWedges, List.map_map, Function.comp_def]
  rw [pie_sum, div_self hx, one_mul]

/-- Witness for C9 amended at the three-category database. -/
theorem raw_percent_sum_100_witness :
    (rawPercents (query3 threeCategoryDB)).sum = 100 :=
  raw_percent_sum_100 threeCategoryDB (by decide)

/-- C10: the BETWEEN filter of the monthly-sales query is inclusive at
both endpoints: a sale dated exactly start_date or exactly end_date passes
the filter, so its truncated month appears in the result with a positive
count. -/
theorem between_endpoints_counted (db : DB) (s e : Date) (r : SaleRow)
    (hr : r ∈ db.sales) (hse : Date.le s e = true)
    (hend : r.sale_date = s ∨ r.sale_date = e) :
    ∃ c, (truncMonth r.sale_date, c) ∈ query2 db s e ∧ 1 ≤ c := by
  have hcond : (Date.le s r.sale_date && Date.le r.sale_date e) = true := by
    rcases hend with h | h <;> rw [h, Bool.and_eq_true]
    · exact ⟨Date.le_refl s, hse⟩
    · exact ⟨hse, Date.le_refl e⟩
  have hmem : truncMonth r.sale_date ∈
      (db.sales.filter (fun x =>
        Date.le s x.sale_date && Date.le x.sale_date e)).map
          (fun x => truncMonth x.sale_date) :=
    List.mem_map_of_mem _ (List.mem_filter.mpr ⟨hr, hcond⟩)
  refine ⟨((db.sales.filter (fun x =>
      Date.le s x.sale_date && Date.le x.sale_date e)).map
        (fun x => truncMonth x.sale_date)).count (truncMonth r.sale_date),
    ?_, ?_⟩
  · rw [mem_query2_iff]
    exact countGroups_mem_iff.mpr ⟨hmem, rfl⟩
  · exact List.count_pos_iff.mpr hmem

/-- Witness for C10: the single sale dated exactly on start_date
2020-01-20 is counted by the monthly-sales query. -/
theorem between_endpoints_counted_witness :
    ∃ c, (truncMonth ⟨2020, 1, 20⟩, c) ∈
        query2 oneSaleDB ⟨2020, 1, 20⟩ ⟨2020, 2, 28⟩ ∧ 1 ≤ c :=
  between_endpoints_counted oneSaleDB ⟨2020, 1, 20⟩ ⟨2020, 2, 28⟩
    ⟨1, 1, ⟨2020, 1, 20⟩⟩ (by decide) (by decide) (Or.inl rfl)

theorem round_thousand_thirds : round ((1000 : ℚ) / 3) = 333 := by
  rw [round_eq]
  have hb : (1000 : ℚ) / 3 + 1 / 2 = 2003 / 6 := by norm_num
  rw [hb, Int.floor_eq_iff]
  norm_num

/-- C9 counterexample: with three categories of one model each, the pie
chart displays 33.3 percent on every wedge (autopct rounds each percentage
to one decimal independently, with no largest-remainder correction), so
the displayed percentages sum to 99.9, not 100. -/
theorem displayed_percent_sum_deviates :
    (displayedPercents (query3 threeCategoryDB)).sum = 999 / 10 ∧
      ((999 : ℚ) / 10) ≠ 100 := by
  constructor
  · have h3 : query3 threeCategoryDB
        = [("SUV", 1), ("Sedan", 1), ("Truck", 1)] := by decide
    rw [displayedPercents, pieWedges, h3]
    norm_num [round1, round_thousand_thirds]
  · norm_num
